import Mathlib

/-!
Shallow embedding of the BJJTimer core: the pure state module
(src/utils/TimerState.js) and the stateful timer engine
(src/utils/TimerLogic.js).  Timestamps and durations are integers
(JavaScript millisecond values); the render-rate constant 1000/30 is a
rational, as in the source.  Wall-clock reads (Date.now()) become explicit
parameters.  Side effects on the audio collaborator and the subscriber set
become an event list returned alongside the new engine value.  JavaScript
truthiness tests on numbers (zero is falsy) are modelled explicitly.
-/

/-- The two timer phases, TIMER_PHASES in TimerState.js. -/
inductive Phase where
  | idle : Phase
  | work : Phase
deriving DecidableEq, Repr

namespace TIMER_CONSTANTS

def SECOND : Int := 1000

def MINUTE : Int := 60 * 1000

/-- RENDER_RATE is the JavaScript float 1000/30; exactly a rational. -/
def RENDER_RATE : ℚ := 1000 / 30

def SOON_TIME : Int := 10 * 1000

def MIN_ROUND_TIME : Int := 30 * 1000

/-- The lower bound SOON_TIME - RENDER_RATE * 2 of the soon-cue window,
precomputed as a reduced rational literal so that concrete engine states
evaluate inside the kernel; SOON_WINDOW_LOW_eq proves it equal to the
source expression. -/
def SOON_WINDOW_LOW : ℚ := mkRat 29800 3

end TIMER_CONSTANTS

/-- The timer state record built by createInitialState. -/
structure TimerState where
  isRunning : Bool
  timeLeft : Int
  phase : Phase
  startTime : Option Int
  sessionStartTime : Option Int
  roundTime : Int
  soonSoundPlayed : Bool
deriving DecidableEq, Repr

/-- createInitialState from TimerState.js. -/
def createInitialState (roundTime : Int) : TimerState :=
  { isRunning := false
    timeLeft := roundTime
    phase := Phase.idle
    startTime := none
    sessionStartTime := none
    roundTime := roundTime
    soonSoundPlayed := false }

/-- The record returned by validateSettings. -/
structure Settings where
  roundTime : Int
deriving DecidableEq, Repr

/-- validateSettings from TimerState.js: Math.max(MIN_ROUND_TIME, roundTime). -/
def validateSettings (roundTime : Int) : Settings :=
  { roundTime := max TIMER_CONSTANTS.MIN_ROUND_TIME roundTime }

/-- getCurrentPhaseDuration from TimerState.js. -/
def getCurrentPhaseDuration (state : TimerState) : Int :=
  state.roundTime

/-- shouldTransitionPhase from TimerState.js: timeLeft <= 0. -/
def shouldTransitionPhase (state : TimerState) : Bool :=
  state.timeLeft ≤ 0

/-- createPhaseTransition from TimerState.js.  The Date.now() read inside
the function is the explicit parameter now.  The shallow merge applies the
switch-case updates on top of the base updates on top of the prior state. -/
def createPhaseTransition (state : TimerState) (newPhase : Phase) (now : Int) :
    TimerState :=
  match newPhase with
  | Phase.work =>
      { state with
        phase := newPhase
        startTime := some now
        soonSoundPlayed := false
        timeLeft := state.roundTime }
  | Phase.idle =>
      { state with
        phase := newPhase
        startTime := none
        soonSoundPlayed := false
        timeLeft := state.roundTime
        isRunning := false
        sessionStartTime := none }

/-- JavaScript truthiness of a nullable millisecond number: null and 0 are
falsy, everything else truthy.  Used by the source's checks
!this.state.startTime and !this.state.sessionStartTime. -/
def truthyTime : Option Int → Bool
  | none => false
  | some t => t ≠ 0

/-- JavaScript x || d for a nullable number x: null, undefined and 0 fall
through to the default (the constructor's initialSettings.roundTime || ...). -/
def jsOrDefault (x : Option Int) (d : Int) : Int :=
  match x with
  | none => d
  | some v => if v = 0 then d else v

/-- Side effects the engine performs on its collaborators: the audio
manager's initialize/playSoon/playFinish calls and subscriber
notifications. -/
inductive Event where
  | audioInit : Event
  | playSoon : Event
  | playFinish : Event
  | notify : Event
deriving DecidableEq, Repr

/-- The TimerLogic instance fields: the state record, the interval handle
(modelled as whether a handle is registered), and the two bookkeeping
timestamps.  The audio manager and subscriber set live in the event
lists. -/
structure TimerLogic where
  state : TimerState
  intervalId : Bool
  lastActionTime : Int
  lastNotifyTime : Int
deriving DecidableEq, Repr

namespace TimerLogic

/-- The TimerLogic constructor: validateSettings(initialSettings.roundTime
|| 5 * 60 * 1000), then createInitialState; intervalId starts null and the
two bookkeeping timestamps start at 0. -/
def init (initialRoundTime : Option Int) : TimerLogic :=
  let roundTime := (validateSettings (jsOrDefault initialRoundTime (5 * 60 * 1000))).roundTime
  { state := createInitialState roundTime
    intervalId := false
    lastActionTime := 0
    lastNotifyTime := 0 }

/-- updateSettings: validate newSettings.roundTime ?? state.roundTime
(nullish coalescing), merge, and if idle also set timeLeft; notify. -/
def updateSettings (l : TimerLogic) (newRoundTime : Option Int) :
    TimerLogic × List Event :=
  let validated := validateSettings (newRoundTime.getD l.state.roundTime)
  let s1 := { l.state with roundTime := validated.roundTime }
  let s2 :=
    if s1.phase = Phase.idle then { s1 with timeLeft := validated.roundTime }
    else s1
  ({ l with state := s2 }, [Event.notify])

/-- start: early return if running; otherwise initialize audio, capture
now, either transition Idle→Work (overriding the transition's own
timestamp transNow with now) or recompute startTime from timeLeft, set
isRunning, set sessionStartTime if falsy, start ticking, notify.  transNow
is the separate Date.now() read inside createPhaseTransition. -/
def start (l : TimerLogic) (now transNow : Int) : TimerLogic × List Event :=
  if l.state.isRunning then (l, [])
  else
    let s1 :=
      if l.state.phase = Phase.idle then
        let t := createPhaseTransition l.state Phase.work transNow
        { t with startTime := some now }
      else
        { l.state with
          startTime := some (now - (getCurrentPhaseDuration l.state - l.state.timeLeft)) }
    let s2 := { s1 with isRunning := true }
    let s3 :=
      if truthyTime s2.sessionStartTime then s2
      else { s2 with sessionStartTime := some now }
    ({ l with state := s3, intervalId := true }, [Event.audioInit, Event.notify])

/-- pause: early return if not running; otherwise clear isRunning, stop
ticking, notify. -/
def pause (l : TimerLogic) : TimerLogic × List Event :=
  if !l.state.isRunning then (l, [])
  else
    ({ l with state := { l.state with isRunning := false }, intervalId := false },
     [Event.notify])

/-- reset: stop ticking, replace the state with createInitialState of the
current roundTime, notify. -/
def reset (l : TimerLogic) : TimerLogic × List Event :=
  ({ l with intervalId := false, state := createInitialState l.state.roundTime },
   [Event.notify])

/-- toggle: debounce 100 ms on lastActionTime, then dispatch to pause or
start.  now is toggle's own Date.now() read; startNow and transNow are the
reads inside start, when start runs. -/
def toggle (l : TimerLogic) (now startNow transNow : Int) :
    TimerLogic × List Event :=
  if now - l.lastActionTime < 100 then (l, [])
  else
    let l1 := { l with lastActionTime := now }
    if l1.state.isRunning then pause l1 else start l1 startNow transNow

/-- adjustCurrentTime: clamp timeLeft + deltaMs into [0, phaseDuration];
if running recompute startTime from now; notify. -/
def adjustCurrentTime (l : TimerLogic) (deltaMs now : Int) :
    TimerLogic × List Event :=
  let currentPhaseDuration := getCurrentPhaseDuration l.state
  let newTimeLeft := min (max 0 (l.state.timeLeft + deltaMs)) currentPhaseDuration
  let s1 := { l.state with timeLeft := newTimeLeft }
  let s2 :=
    if s1.isRunning then
      { s1 with startTime := some (now - (currentPhaseDuration - newTimeLeft)) }
    else s1
  ({ l with state := s2 }, [Event.notify])

/-- checkAudioCues: play the soon cue when phase is Work, timeLeft is in
the window (SOON_TIME - RENDER_RATE*2, SOON_TIME] and the latch is unset;
the comparison of timeLeft against SOON_TIME - RENDER_RATE*2 is exact
rational arithmetic (as in JavaScript floats for these magnitudes), with
the bound written as the literal SOON_WINDOW_LOW. -/
def checkAudioCues (l : TimerLogic) : TimerLogic × List Event :=
  if l.state.phase = Phase.work ∧
      l.state.timeLeft ≤ TIMER_CONSTANTS.SOON_TIME ∧
      ((l.state.timeLeft : ℚ) > TIMER_CONSTANTS.SOON_WINDOW_LOW) ∧
      l.state.soonSoundPlayed = false then
    ({ l with state := { l.state with soonSoundPlayed := true } }, [Event.playSoon])
  else (l, [])

/-- handlePhaseTransition: force timeLeft to 0; if the phase is Work, play
the finish cue and reset; otherwise notify. -/
def handlePhaseTransition (l : TimerLogic) : TimerLogic × List Event :=
  let l1 := { l with state := { l.state with timeLeft := 0 } }
  if l1.state.phase = Phase.work then
    let r := reset l1
    (r.1, Event.playFinish :: r.2)
  else (l1, [Event.notify])

/-- tick: guard on isRunning, truthy startTime and a registered interval
handle; recompute timeLeft from now - startTime; transition if due; else
check audio cues and notify at most every 100 ms. -/
def tick (l : TimerLogic) (now : Int) : TimerLogic × List Event :=
  if !l.state.isRunning ∨ !truthyTime l.state.startTime ∨ !l.intervalId then
    (l, [])
  else
    let currentPhaseDuration := getCurrentPhaseDuration l.state
    let elapsedTimeInPhase := now - l.state.startTime.getD 0
    let newTimeLeft := currentPhaseDuration - elapsedTimeInPhase
    let l1 := { l with state := { l.state with timeLeft := newTimeLeft } }
    if shouldTransitionPhase l1.state then handlePhaseTransition l1
    else
      let c := checkAudioCues l1
      let shouldNotify := c.1.lastNotifyTime = 0 ∨ now - c.1.lastNotifyTime ≥ 100
      if shouldNotify then
        ({ c.1 with lastNotifyTime := now }, c.2 ++ [Event.notify])
      else (c.1, c.2)

/-- destroy: stop ticking, clear subscribers, force isRunning false. -/
def destroy (l : TimerLogic) : TimerLogic :=
  { l with intervalId := false, state := { l.state with isRunning := false } }

end TimerLogic

/-- The Idle invariant of the spec: in the Idle phase the clock is stopped,
both timestamps are null and timeLeft shows the full configured round. -/
def StateInv (s : TimerState) : Prop :=
  s.phase = Phase.idle →
    s.isRunning = false ∧ s.startTime = none ∧ s.sessionStartTime = none ∧
      s.timeLeft = s.roundTime

/-- The timestamp part of the Idle invariant, without the timeLeft
component. -/
def StateInvCore (s : TimerState) : Prop :=
  s.phase = Phase.idle →
    s.isRunning = false ∧ s.startTime = none ∧ s.sessionStartTime = none

instance instDecStateInv (s : TimerState) : Decidable (StateInv s) := by
  unfold StateInv
  infer_instance

instance instDecStateInvCore (s : TimerState) : Decidable (StateInvCore s) := by
  unfold StateInvCore
  infer_instance

/-- A concrete engine running in the Work phase: started at 500 with a
5-minute round, 250000 ms left. -/
def lRun : TimerLogic :=
  { state :=
      { isRunning := true
        timeLeft := 250000
        phase := Phase.work
        startTime := some 500
        sessionStartTime := some 500
        roundTime := 300000
        soonSoundPlayed := false }
    intervalId := true
    lastActionTime := 0
    lastNotifyTime := 0 }

/-- A concrete engine paused in the Work phase with 250000 ms left. -/
def lPaused : TimerLogic :=
  { state := { lRun.state with isRunning := false, startTime := none }
    intervalId := false
    lastActionTime := 0
    lastNotifyTime := 0 }

/-- A concrete engine freshly running a 30-second Work phase, cue latch
unset. -/
def lFresh : TimerLogic :=
  { state :=
      { isRunning := true
        timeLeft := 30000
        phase := Phase.work
        startTime := some 500
        sessionStartTime := some 500
        roundTime := 30000
        soonSoundPlayed := false }
    intervalId := true
    lastActionTime := 0
    lastNotifyTime := 0 }

/-- A concrete running Work-phase engine whose startTime is exactly 0, the
JavaScript-falsy timestamp. -/
def lZeroStart : TimerLogic :=
  { state :=
      { isRunning := true
        timeLeft := 5000
        phase := Phase.work
        startTime := some 0
        sessionStartTime := some 1
        roundTime := 30000
        soonSoundPlayed := false }
    intervalId := true
    lastActionTime := 0
    lastNotifyTime := 0 }

/-- The precomputed soon-window lower bound equals the source expression
SOON_TIME - RENDER_RATE * 2. -/
theorem TIMER_CONSTANTS.SOON_WINDOW_LOW_eq :
    TIMER_CONSTANTS.SOON_WINDOW_LOW =
      (TIMER_CONSTANTS.SOON_TIME : ℚ) - TIMER_CONSTANTS.RENDER_RATE * 2 := by
  rw [TIMER_CONSTANTS.SOON_WINDOW_LOW, Rat.mkRat_eq_div]
  norm_num [TIMER_CONSTANTS.RENDER_RATE, TIMER_CONSTANTS.SOON_TIME]

/-- For an integer number of milliseconds, lying strictly above the
soon-window lower bound is the same as being at least 9934. -/
theorem soon_window_low_lt_iff (t : Int) :
    TIMER_CONSTANTS.SOON_WINDOW_LOW < (t : ℚ) ↔ 9934 ≤ t := by
  rw [TIMER_CONSTANTS.SOON_WINDOW_LOW, Rat.mkRat_eq_div]
  push_cast
  rw [div_lt_iff₀ (by norm_num : (0:ℚ) < 3)]
  constructor
  · intro h
    have h2 : (29800:Int) < t * 3 := by exact_mod_cast h
    omega
  · intro h
    have h2 : (29800:Int) < t * 3 := by omega
    exact_mod_cast h2

/-- Claim C6: for every input d, validateSettings returns roundTime equal
to max(d, 30000): 30000 whenever d < 30000 and d whenever d is at least
30000; validateSettings is a total function, so it never errors. -/
theorem C6_validateSettings_clamps (d : Int) :
    (validateSettings d).roundTime = max d 30000 ∧
    (d < 30000 → (validateSettings d).roundTime = 30000) ∧
    (30000 ≤ d → (validateSettings d).roundTime = d) := by
  unfold validateSettings TIMER_CONSTANTS.MIN_ROUND_TIME
  refine ⟨max_comm _ _, fun h => ?_, fun h => ?_⟩
  · simp only
    omega
  · simp only
    omega

/-- Witness for C6 at d = 1000 and d = 50000. -/
theorem C6_witness :
    ((1000:Int) < 30000 ∧ (validateSettings 1000).roundTime = 30000) ∧
    ((30000:Int) ≤ 50000 ∧ (validateSettings 50000).roundTime = 50000) :=
  ⟨⟨by decide, (C6_validateSettings_clamps 1000).2.1 (by decide)⟩,
   ⟨by decide, (C6_validateSettings_clamps 50000).2.2 (by decide)⟩⟩

/-- Claim C9: calling start while isRunning is true returns early: the
engine value is unchanged in every field and no events (in particular no
subscriber notification) are produced. -/
theorem C9_start_noop_when_running (l : TimerLogic) (now transNow : Int)
    (h : l.state.isRunning = true) :
    TimerLogic.start l now transNow = (l, []) := by
  unfold TimerLogic.start
  simp [h]

/-- Witness for C9 on a concrete running engine. -/
theorem C9_witness :
    lRun.state.isRunning = true ∧ TimerLogic.start lRun 777 778 = (lRun, []) :=
  ⟨rfl, C9_start_noop_when_running lRun 777 778 rfl⟩

/-- Claim C10: constructing with no roundTime or with roundTime 0 yields
the 5-minute default 300000 (the falsy-or test replaces 0 by the default
rather than clamping it to 30000); any nonzero supplied r yields
max(r, 30000). -/
theorem C10_constructor_roundTime (r : Int) (hr : r ≠ 0) :
    (TimerLogic.init none).state.roundTime = 300000 ∧
    (TimerLogic.init (some 0)).state.roundTime = 300000 ∧
    (TimerLogic.init (some r)).state.roundTime = max r 30000 := by
  refine ⟨by decide, by decide, ?_⟩
  unfold TimerLogic.init jsOrDefault validateSettings TIMER_CONSTANTS.MIN_ROUND_TIME
    createInitialState
  simp [hr]
  exact max_comm _ _

/-- Witness for C10 at r = 40000. -/
theorem C10_witness :
    (40000:Int) ≠ 0 ∧ (TimerLogic.init (some 40000)).state.roundTime = max 40000 30000 :=
  ⟨by decide, (C10_constructor_roundTime 40000 (by decide)).2.2⟩

/-- Claim C8: for every state with a nonnegative round duration and every
delta, adjustCurrentTime leaves timeLeft inside the closed interval from 0
to the phase duration. -/
theorem C8_adjust_clamps (l : TimerLogic) (deltaMs now : Int)
    (h : 0 ≤ l.state.roundTime) :
    0 ≤ (TimerLogic.adjustCurrentTime l deltaMs now).1.state.timeLeft ∧
    (TimerLogic.adjustCurrentTime l deltaMs now).1.state.timeLeft ≤
      getCurrentPhaseDuration l.state := by
  have ht : (TimerLogic.adjustCurrentTime l deltaMs now).1.state.timeLeft =
      min (max 0 (l.state.timeLeft + deltaMs)) l.state.roundTime := by
    unfold TimerLogic.adjustCurrentTime getCurrentPhaseDuration
    dsimp only
    split <;> rfl
  rw [ht, getCurrentPhaseDuration]
  exact ⟨le_min (le_max_left _ _) h, min_le_right _ _⟩

/-- Witness for C8 on a concrete engine with a large negative delta. -/
theorem C8_witness :
    (0:Int) ≤ lRun.state.roundTime ∧
    0 ≤ (TimerLogic.adjustCurrentTime lRun (-999999) 600).1.state.timeLeft ∧
    (TimerLogic.adjustCurrentTime lRun (-999999) 600).1.state.timeLeft ≤
      getCurrentPhaseDuration lRun.state :=
  ⟨by decide, C8_adjust_clamps lRun (-999999) 600 (by decide)⟩

/-- Claim C3: if the timer is paused in the Work phase with timeLeft t,
then start at any wall-clock instant now leaves timeLeft equal to t and
sets startTime to now - (phaseDuration - t), for every pause duration. -/
theorem C3_resume_preserves_timeLeft (l : TimerLogic) (now transNow : Int)
    (hrun : l.state.isRunning = false) (hph : l.state.phase = Phase.work) :
    (TimerLogic.start l now transNow).1.state.timeLeft = l.state.timeLeft ∧
    (TimerLogic.start l now transNow).1.state.startTime =
      some (now - (getCurrentPhaseDuration l.state - l.state.timeLeft)) := by
  obtain ⟨⟨run, tl, ph, st, sst, rt, ssp⟩, iid, lat, lnt⟩ := l
  dsimp only at hrun hph ⊢
  subst hrun
  subst hph
  cases sst with
  | none => simp [TimerLogic.start, truthyTime, getCurrentPhaseDuration]
  | some v =>
      by_cases hv : v = 0 <;>
        simp [TimerLogic.start, truthyTime, getCurrentPhaseDuration, hv]

/-- Witness for C3: pausing lPaused at 250000 ms left and resuming at
now = 900000 keeps 250000 ms and sets startTime to 850000. -/
theorem C3_witness :
    lPaused.state.isRunning = false ∧ lPaused.state.phase = Phase.work ∧
    (TimerLogic.start lPaused 900000 900001).1.state.timeLeft = lPaused.state.timeLeft ∧
    (TimerLogic.start lPaused 900000 900001).1.state.startTime =
      some (900000 - (getCurrentPhaseDuration lPaused.state - lPaused.state.timeLeft)) :=
  ⟨rfl, rfl, C3_resume_preserves_timeLeft lPaused 900000 900001 rfl rfl⟩

/-- Claim C7: start from Idle while not running yields Work, running,
timeLeft equal to roundTime, startTime equal to the single timestamp now
read in start (the transition function's own Date.now() read transNow is
overridden, so the result does not depend on it), and sessionStartTime set
to now when it was previously null. -/
theorem C7_start_from_idle (l : TimerLogic) (now transNow transNow2 : Int)
    (hrun : l.state.isRunning = false) (hph : l.state.phase = Phase.idle) :
    (TimerLogic.start l now transNow).1.state.phase = Phase.work ∧
    (TimerLogic.start l now transNow).1.state.isRunning = true ∧
    (TimerLogic.start l now transNow).1.state.timeLeft = l.state.roundTime ∧
    (TimerLogic.start l now transNow).1.state.startTime = some now ∧
    (l.state.sessionStartTime = none →
      (TimerLogic.start l now transNow).1.state.sessionStartTime = some now) ∧
    TimerLogic.start l now transNow = TimerLogic.start l now transNow2 := by
  obtain ⟨⟨run, tl, ph, st, sst, rt, ssp⟩, iid, lat, lnt⟩ := l
  dsimp only at hrun hph ⊢
  subst hrun
  subst hph
  cases sst with
  | none => simp [TimerLogic.start, createPhaseTransition, truthyTime]
  | some v =>
      by_cases hv : v = 0 <;>
        simp [TimerLogic.start, createPhaseTransition, truthyTime, hv]

/-- Witness for C7 on a fresh idle engine started at now = 4242 (with two
different internal transition timestamps). -/
theorem C7_witness :
    (TimerLogic.init none).state.isRunning = false ∧
    (TimerLogic.init none).state.phase = Phase.idle ∧
    (TimerLogic.init none).state.sessionStartTime = none ∧
    (TimerLogic.start (TimerLogic.init none) 4242 77).1.state.phase = Phase.work ∧
    (TimerLogic.start (TimerLogic.init none) 4242 77).1.state.isRunning = true ∧
    (TimerLogic.start (TimerLogic.init none) 4242 77).1.state.timeLeft =
      (TimerLogic.init none).state.roundTime ∧
    (TimerLogic.start (TimerLogic.init none) 4242 77).1.state.startTime = some 4242 ∧
    (TimerLogic.start (TimerLogic.init none) 4242 77).1.state.sessionStartTime = some 4242 ∧
    TimerLogic.start (TimerLogic.init none) 4242 77 =
      TimerLogic.start (TimerLogic.init none) 4242 88 := by
  have h := C7_start_from_idle (TimerLogic.init none) 4242 77 88 rfl rfl
  exact ⟨rfl, rfl, rfl, h.1, h.2.1, h.2.2.1, h.2.2.2.1, h.2.2.2.2.1 rfl, h.2.2.2.2.2⟩

/-- Claim C4: a tick that fires while running in the Work phase (guards
satisfied) whose freshly recomputed timeLeft is at most 0 plays the finish
cue exactly once, stops the tick loop, and replaces the state with the
initial Idle state preserving roundTime, so afterwards phase is Idle and
timeLeft equals roundTime. -/
theorem C4_work_phase_completion (l : TimerLogic) (now : Int)
    (hrun : l.state.isRunning = true) (hst : truthyTime l.state.startTime = true)
    (hint : l.intervalId = true) (hph : l.state.phase = Phase.work)
    (hdone : getCurrentPhaseDuration l.state - (now - l.state.startTime.getD 0) ≤ 0) :
    TimerLogic.tick l now =
      ({ l with intervalId := false, state := createInitialState l.state.roundTime },
        [Event.playFinish, Event.notify]) ∧
    (TimerLogic.tick l now).2.count Event.playFinish = 1 ∧
    (TimerLogic.tick l now).1.state.phase = Phase.idle ∧
    (TimerLogic.tick l now).1.state.timeLeft = l.state.roundTime := by
  have heq : TimerLogic.tick l now =
      ({ l with intervalId := false, state := createInitialState l.state.roundTime },
        [Event.playFinish, Event.notify]) := by
    obtain ⟨⟨run, tl, ph, st, sst, rt, ssp⟩, iid, lat, lnt⟩ := l
    dsimp only at hrun hst hint hph hdone ⊢
    subst hrun
    subst hph
    subst hint
    unfold getCurrentPhaseDuration at hdone
    dsimp only at hdone
    simp [TimerLogic.tick, TimerLogic.handlePhaseTransition, TimerLogic.reset,
      shouldTransitionPhase, getCurrentPhaseDuration, createInitialState, hst, hdone]
  refine ⟨heq, ?_, ?_, ?_⟩ <;> rw [heq] <;> rfl

/-- Witness for C4: the running engine lRun completes its 300000 ms Work
phase at now = 300500. -/
theorem C4_witness :
    lRun.state.isRunning = true ∧ truthyTime lRun.state.startTime = true ∧
    lRun.intervalId = true ∧ lRun.state.phase = Phase.work ∧
    getCurrentPhaseDuration lRun.state - (300500 - lRun.state.startTime.getD 0) ≤ 0 ∧
    TimerLogic.tick lRun 300500 =
      ({ lRun with
          intervalId := false
          state := createInitialState lRun.state.roundTime },
        [Event.playFinish, Event.notify]) ∧
    (TimerLogic.tick lRun 300500).2.count Event.playFinish = 1 ∧
    (TimerLogic.tick lRun 300500).1.state.phase = Phase.idle ∧
    (TimerLogic.tick lRun 300500).1.state.timeLeft = lRun.state.roundTime := by
  have h := C4_work_phase_completion lRun 300500 rfl rfl rfl rfl (by decide)
  exact ⟨rfl, rfl, rfl, rfl, by decide, h.1, h.2.1, h.2.2.1, h.2.2.2⟩

/-- Claim C2 (amended): on every tick in which isRunning is true, startTime
is truthy (non-null and non-zero) and the loop handle is registered, the
stored timeLeft is recomputed as phaseDuration - (now - startTime) from the
absolute start timestamp (stated here for ticks where the recomputed value
is still positive; otherwise the phase-transition handler consumes it);
whenever the guard conjunction fails the tick leaves the engine entirely
unchanged and emits nothing.  The original claim's guard said only
"startTime non-null": it fails when startTime is exactly 0, which
JavaScript's falsy test also treats as absent. -/
theorem C2_amended_tick_recompute (l : TimerLogic) (now : Int) :
    (l.state.isRunning = true → truthyTime l.state.startTime = true →
      l.intervalId = true →
      0 < getCurrentPhaseDuration l.state - (now - l.state.startTime.getD 0) →
      (TimerLogic.tick l now).1.state.timeLeft =
        getCurrentPhaseDuration l.state - (now - l.state.startTime.getD 0)) ∧
    (¬(l.state.isRunning = true ∧ truthyTime l.state.startTime = true ∧
        l.intervalId = true) →
      TimerLogic.tick l now = (l, [])) := by
  constructor
  · intro hrun hst hint hpos
    obtain ⟨⟨run, tl, ph, st, sst, rt, ssp⟩, iid, lat, lnt⟩ := l
    dsimp only at hrun hst hint hpos ⊢
    subst hrun
    subst hint
    unfold getCurrentPhaseDuration at hpos ⊢
    dsimp only at hpos ⊢
    have hns : ¬ (rt - (now - st.getD 0) ≤ 0) := by omega
    simp only [TimerLogic.tick, TimerLogic.checkAudioCues, shouldTransitionPhase,
      getCurrentPhaseDuration, hst, Bool.not_true, Bool.false_eq_true, or_self,
      if_false, decide_eq_true_eq, hns, or_false, false_or]
    split <;> split <;> rfl
  · intro h
    unfold TimerLogic.tick
    split
    · rfl
    · next hg =>
        exfalso
        apply h
        simpa using hg

/-- Counterexample to C2 as stated: with isRunning true, the loop handle
registered and startTime the non-null value some 0, the tick is a no-op and
does not recompute timeLeft as phaseDuration - (now - startTime). -/
theorem C2_counterexample :
    lZeroStart.state.isRunning = true ∧
    lZeroStart.state.startTime ≠ none ∧
    lZeroStart.intervalId = true ∧
    TimerLogic.tick lZeroStart 1000 = (lZeroStart, []) ∧
    (TimerLogic.tick lZeroStart 1000).1.state.timeLeft ≠
      getCurrentPhaseDuration lZeroStart.state - (1000 - 0) := by
  decide

/-- Witness for C2 on the running engine lRun ticked at now = 100000. -/
theorem C2_witness :
    lRun.state.isRunning = true ∧ truthyTime lRun.state.startTime = true ∧
    lRun.intervalId = true ∧
    0 < getCurrentPhaseDuration lRun.state - (100000 - lRun.state.startTime.getD 0) ∧
    (TimerLogic.tick lRun 100000).1.state.timeLeft =
      getCurrentPhaseDuration lRun.state - (100000 - lRun.state.startTime.getD 0) :=
  ⟨rfl, rfl, rfl, by decide,
    (C2_amended_tick_recompute lRun 100000).1 rfl rfl rfl (by decide)⟩

/-- The engine constructor establishes the Idle invariant. -/
theorem init_StateInv (o : Option Int) : StateInv (TimerLogic.init o).state := by
  intro _
  exact ⟨rfl, rfl, rfl, rfl⟩

/-- start preserves the Idle invariant: its result is either unchanged or
in the Work phase. -/
theorem start_StateInv (l : TimerLogic) (now transNow : Int)
    (h : StateInv l.state) : StateInv (TimerLogic.start l now transNow).1.state := by
  obtain ⟨⟨run, tl, ph, st, sst, rt, ssp⟩, iid, lat, lnt⟩ := l
  cases run
  case true =>
    simpa [TimerLogic.start] using h
  case false =>
    cases ph <;>
    · intro hidle
      exfalso
      revert hidle
      cases sst with
      | none => simp [TimerLogic.start, createPhaseTransition, truthyTime]
      | some v =>
          by_cases hv : v = 0 <;>
            simp [TimerLogic.start, createPhaseTransition, truthyTime, hv]

/-- pause preserves the Idle invariant. -/
theorem pause_StateInv (l : TimerLogic) (h : StateInv l.state) :
    StateInv (TimerLogic.pause l).1.state := by
  obtain ⟨⟨run, tl, ph, st, sst, rt, ssp⟩, iid, lat, lnt⟩ := l
  cases run
  case false => simpa [TimerLogic.pause] using h
  case true =>
    intro hidle
    dsimp only [TimerLogic.pause] at hidle ⊢
    obtain ⟨h1, h2, h3, h4⟩ := h hidle
    exact absurd h1 (by simp)

/-- reset establishes the Idle invariant. -/
theorem reset_StateInv (l : TimerLogic) : StateInv (TimerLogic.reset l).1.state := by
  intro _
  exact ⟨rfl, rfl, rfl, rfl⟩

/-- updateSettings preserves the Idle invariant: in Idle it refreshes
timeLeft together with roundTime. -/
theorem updateSettings_StateInv (l : TimerLogic) (o : Option Int)
    (h : StateInv l.state) : StateInv (TimerLogic.updateSettings l o).1.state := by
  obtain ⟨⟨run, tl, ph, st, sst, rt, ssp⟩, iid, lat, lnt⟩ := l
  cases ph
  case idle =>
    intro _
    obtain ⟨h1, h2, h3, h4⟩ := h rfl
    dsimp only at h1 h2 h3 h4
    subst h1
    subst h2
    subst h3
    simp [TimerLogic.updateSettings]
  case work =>
    intro hidle
    simp [TimerLogic.updateSettings] at hidle

/-- toggle preserves the Idle invariant, dispatching to pause or start. -/
theorem toggle_StateInv (l : TimerLogic) (now startNow transNow : Int)
    (h : StateInv l.state) :
    StateInv (TimerLogic.toggle l now startNow transNow).1.state := by
  unfold TimerLogic.toggle
  split
  · exact h
  · dsimp only
    split
    · exact pause_StateInv _ h
    · exact start_StateInv _ startNow transNow h

/-- tick preserves the Idle invariant: a completed Work phase resets to the
initial Idle state, every other branch stays in Work or leaves the state
unchanged. -/
theorem tick_StateInv (l : TimerLogic) (now : Int) (h : StateInv l.state) :
    StateInv (TimerLogic.tick l now).1.state := by
  obtain ⟨⟨run, tl, ph, st, sst, rt, ssp⟩, iid, lat, lnt⟩ := l
  cases run
  case false => simpa [TimerLogic.tick] using h
  case true =>
    cases ph
    case idle =>
      obtain ⟨h1, -, -, -⟩ := h rfl
      exact absurd h1 (by simp)
    case work =>
      unfold TimerLogic.tick
      split
      · exact h
      · dsimp only
        split
        · simp only [TimerLogic.handlePhaseTransition, TimerLogic.reset]
          intro _
          exact ⟨rfl, rfl, rfl, rfl⟩
        · unfold TimerLogic.checkAudioCues
          split <;> split <;>
          · intro hidle
            exact absurd hidle (by simp)

/-- adjustCurrentTime preserves the timestamp part of the Idle invariant:
phase, isRunning, startTime and sessionStartTime are untouched while
idle. -/
theorem adjust_StateInvCore (l : TimerLogic) (deltaMs now : Int)
    (h : StateInv l.state) :
    StateInvCore (TimerLogic.adjustCurrentTime l deltaMs now).1.state := by
  obtain ⟨⟨run, tl, ph, st, sst, rt, ssp⟩, iid, lat, lnt⟩ := l
  cases run
  case false =>
    have hres : (TimerLogic.adjustCurrentTime
        ⟨⟨false, tl, ph, st, sst, rt, ssp⟩, iid, lat, lnt⟩ deltaMs now).1.state =
        { isRunning := false, timeLeft := min (max 0 (tl + deltaMs)) rt, phase := ph,
          startTime := st, sessionStartTime := sst, roundTime := rt,
          soonSoundPlayed := ssp } := by
      simp [TimerLogic.adjustCurrentTime, getCurrentPhaseDuration]
    unfold StateInvCore
    rw [hres]
    intro hidle
    dsimp only at hidle
    obtain ⟨h1, h2, h3, h4⟩ := h hidle
    exact ⟨rfl, h2, h3⟩
  case true =>
    have hres : (TimerLogic.adjustCurrentTime
        ⟨⟨true, tl, ph, st, sst, rt, ssp⟩, iid, lat, lnt⟩ deltaMs now).1.state =
        { isRunning := true, timeLeft := min (max 0 (tl + deltaMs)) rt, phase := ph,
          startTime := some (now - (rt - min (max 0 (tl + deltaMs)) rt)),
          sessionStartTime := sst, roundTime := rt, soonSoundPlayed := ssp } := by
      simp [TimerLogic.adjustCurrentTime, getCurrentPhaseDuration]
    unfold StateInvCore
    rw [hres]
    intro hidle
    dsimp only at hidle
    obtain ⟨h1, -, -, -⟩ := h hidle
    exact absurd h1 (by simp)

/-- adjustCurrentTime with a nonnegative delta preserves the full Idle
invariant: clamping at the phase duration keeps timeLeft equal to
roundTime in Idle. -/
theorem adjust_StateInv_of_nonneg (l : TimerLogic) (deltaMs now : Int)
    (hd : 0 ≤ deltaMs) (h : StateInv l.state) :
    StateInv (TimerLogic.adjustCurrentTime l deltaMs now).1.state := by
  obtain ⟨⟨run, tl, ph, st, sst, rt, ssp⟩, iid, lat, lnt⟩ := l
  cases run
  case false =>
    have hres : (TimerLogic.adjustCurrentTime
        ⟨⟨false, tl, ph, st, sst, rt, ssp⟩, iid, lat, lnt⟩ deltaMs now).1.state =
        { isRunning := false, timeLeft := min (max 0 (tl + deltaMs)) rt, phase := ph,
          startTime := st, sessionStartTime := sst, roundTime := rt,
          soonSoundPlayed := ssp } := by
      simp [TimerLogic.adjustCurrentTime, getCurrentPhaseDuration]
    unfold StateInv
    rw [hres]
    intro hidle
    dsimp only at hidle
    obtain ⟨h1, h2, h3, h4⟩ := h hidle
    dsimp only at h4
    subst h4
    refine ⟨rfl, h2, h3, ?_⟩
    dsimp only
    omega
  case true =>
    have hres : (TimerLogic.adjustCurrentTime
        ⟨⟨true, tl, ph, st, sst, rt, ssp⟩, iid, lat, lnt⟩ deltaMs now).1.state =
        { isRunning := true, timeLeft := min (max 0 (tl + deltaMs)) rt, phase := ph,
          startTime := some (now - (rt - min (max 0 (tl + deltaMs)) rt)),
          sessionStartTime := sst, roundTime := rt, soonSoundPlayed := ssp } := by
      simp [TimerLogic.adjustCurrentTime, getCurrentPhaseDuration]
    unfold StateInv
    rw [hres]
    intro hidle
    dsimp only at hidle
    obtain ⟨h1, -, -, -⟩ := h hidle
    exact absurd h1 (by simp)

/-- Counterexample to C1 as stated: from the freshly constructed engine
(which satisfies the Idle invariant) adjustCurrentTime with delta -1000
stays in Idle but lowers timeLeft to 299000, below roundTime 300000, so
adjustCurrentTime does not preserve the invariant. -/
theorem C1_counterexample :
    StateInv (TimerLogic.init none).state ∧
    (TimerLogic.adjustCurrentTime (TimerLogic.init none) (-1000) 999).1.state.phase =
      Phase.idle ∧
    (TimerLogic.adjustCurrentTime (TimerLogic.init none) (-1000) 999).1.state.timeLeft =
      299000 ∧
    (TimerLogic.adjustCurrentTime (TimerLogic.init none) (-1000) 999).1.state.roundTime =
      300000 ∧
    ¬ StateInv (TimerLogic.adjustCurrentTime (TimerLogic.init none) (-1000) 999).1.state := by
  decide

/-- Claim C1 (amended): the initial state satisfies the Idle invariant
(phase Idle implies not running, null timestamps, timeLeft equal to
roundTime), and start, pause, reset, toggle, updateSettings and tick all
preserve it; adjustCurrentTime preserves its isRunning/startTime/
sessionStartTime part unconditionally but preserves the timeLeft part only
for nonnegative deltas - a negative delta in Idle lowers timeLeft below
roundTime. -/
theorem C1_amended_inv_preservation (l : TimerLogic) (o oset : Option Int)
    (now startNow transNow deltaMs : Int) (h : StateInv l.state) :
    StateInv (TimerLogic.init o).state ∧
    StateInv (TimerLogic.start l now transNow).1.state ∧
    StateInv (TimerLogic.pause l).1.state ∧
    StateInv (TimerLogic.reset l).1.state ∧
    StateInv (TimerLogic.toggle l now startNow transNow).1.state ∧
    StateInv (TimerLogic.updateSettings l oset).1.state ∧
    StateInv (TimerLogic.tick l now).1.state ∧
    StateInvCore (TimerLogic.adjustCurrentTime l deltaMs now).1.state ∧
    (0 ≤ deltaMs → StateInv (TimerLogic.adjustCurrentTime l deltaMs now).1.state) :=
  ⟨init_StateInv o, start_StateInv l now transNow h, pause_StateInv l h,
   reset_StateInv l, toggle_StateInv l now startNow transNow h,
   updateSettings_StateInv l oset h, tick_StateInv l now h,
   adjust_StateInvCore l deltaMs now h,
   fun hd => adjust_StateInv_of_nonneg l deltaMs now hd h⟩

/-- Witness for C1 on the freshly constructed engine. -/
theorem C1_witness :
    StateInv (TimerLogic.init none).state ∧
    StateInv (TimerLogic.start (TimerLogic.init none) 5 6).1.state ∧
    StateInvCore (TimerLogic.adjustCurrentTime (TimerLogic.init none) (-7) 5).1.state := by
  have h := C1_amended_inv_preservation (TimerLogic.init none) none (some 45000) 5 5 6 (-7)
    (by decide)
  exact ⟨by decide, h.2.1, h.2.2.2.2.2.2.2.1⟩

/-- A tick whose guard conjunction fails (not running, or falsy startTime,
or no registered handle) changes nothing and emits nothing. -/
theorem tick_guard_noop (l : TimerLogic) (now : Int)
    (h : ¬(l.state.isRunning = true ∧ truthyTime l.state.startTime = true ∧
      l.intervalId = true)) : TimerLogic.tick l now = (l, []) := by
  unfold TimerLogic.tick
  split
  · rfl
  · next hg =>
      exfalso
      apply h
      simpa using hg

/-- Counterexample to C5 as stated: in a Work phase with the latch unset
and timeLeft still above 10000 ms, a delayed tick drops timeLeft straight
to 5000 ms - the first tick at which timeLeft is at most 10000 ms - yet the
soon cue is not invoked (5000 is below the window lower bound of about
9933 ms) and the latch stays unset, so the cue fires zero times. -/
theorem C5_counterexample :
    lFresh.state.phase = Phase.work ∧ lFresh.state.soonSoundPlayed = false ∧
    TIMER_CONSTANTS.SOON_TIME < lFresh.state.timeLeft ∧
    (TimerLogic.tick lFresh 25500).1.state.timeLeft = 5000 ∧
    (TimerLogic.tick lFresh 25500).1.state.timeLeft ≤ TIMER_CONSTANTS.SOON_TIME ∧
    (TimerLogic.tick lFresh 25500).2.count Event.playSoon = 0 ∧
    (TimerLogic.tick lFresh 25500).1.state.soonSoundPlayed = false := by
  decide

/-- Claim C5 (amended): a tick plays the soon cue exactly when the guards
pass, no phase transition is due, the phase is Work, the freshly
recomputed timeLeft lies in the half-open window from
SOON_TIME - RENDER_RATE * 2 (exclusive) to SOON_TIME (inclusive), and the
soonSoundPlayed latch is unset; playing the cue sets the latch, and a set
latch blocks the cue, so it fires at most once per Work phase (the latch is
cleared only by phase transitions).  A tick that lands below the window
never fires the cue, so a Work phase in which timeLeft skips the window
gets no soon cue at all. -/
theorem C5_amended_soon_cue_window (l : TimerLogic) (now : Int) :
    (Event.playSoon ∈ (TimerLogic.tick l now).2 ↔
      (l.state.isRunning = true ∧ truthyTime l.state.startTime = true ∧
        l.intervalId = true ∧
        0 < getCurrentPhaseDuration l.state - (now - l.state.startTime.getD 0) ∧
        l.state.phase = Phase.work ∧
        getCurrentPhaseDuration l.state - (now - l.state.startTime.getD 0) ≤
          TIMER_CONSTANTS.SOON_TIME ∧
        ((TIMER_CONSTANTS.SOON_TIME : ℚ) - TIMER_CONSTANTS.RENDER_RATE * 2 <
          ((getCurrentPhaseDuration l.state - (now - l.state.startTime.getD 0) : Int) : ℚ)) ∧
        l.state.soonSoundPlayed = false)) ∧
    (Event.playSoon ∈ (TimerLogic.tick l now).2 →
      (TimerLogic.tick l now).1.state.soonSoundPlayed = true) ∧
    (l.state.soonSoundPlayed = true → Event.playSoon ∉ (TimerLogic.tick l now).2) := by
  rw [← TIMER_CONSTANTS.SOON_WINDOW_LOW_eq]
  obtain ⟨⟨run, tl, ph, st, sst, rt, ssp⟩, iid, lat, lnt⟩ := l
  cases run
  case false =>
    rw [tick_guard_noop _ now (by simp)]
    simp
  case true =>
    cases hst : truthyTime st
    case false =>
      rw [tick_guard_noop _ now (by simp [hst])]
      simp [hst]
    case true =>
      cases iid
      case false =>
        rw [tick_guard_noop _ now (by simp)]
        simp
      case true =>
        by_cases hnt : rt - (now - st.getD 0) ≤ 0
        · have hx : ¬ (0 < rt - (now - st.getD 0)) := by omega
          cases ph <;>
            simp [TimerLogic.tick, TimerLogic.handlePhaseTransition, TimerLogic.reset,
              shouldTransitionPhase, getCurrentPhaseDuration, hst, hnt, hx]
        · have hlt : now - st.getD 0 < rt := by omega
          by_cases hn : (lnt = 0 ∨ now - lnt ≥ 100) <;>
            by_cases hcue : (ph = Phase.work ∧
              rt ≤ TIMER_CONSTANTS.SOON_TIME + (now - st.getD 0) ∧
              TIMER_CONSTANTS.SOON_WINDOW_LOW <
                (rt : ℚ) - ((now : ℚ) - ((st.getD 0 : Int) : ℚ)) ∧
              ssp = false) <;>
            simp [TimerLogic.tick, TimerLogic.checkAudioCues, shouldTransitionPhase,
              getCurrentPhaseDuration, hst, hnt, hlt, hn, hcue]

/-- Witness for C5: ticking lFresh at now = 20550 recomputes timeLeft to
9950 ms, inside the cue window, so the soon cue plays and the latch is
set. -/
theorem C5_witness :
    Event.playSoon ∈ (TimerLogic.tick lFresh 20550).2 ∧
    (TimerLogic.tick lFresh 20550).1.state.soonSoundPlayed = true := by
  have h := C5_amended_soon_cue_window lFresh 20550
  have hmem : Event.playSoon ∈ (TimerLogic.tick lFresh 20550).2 :=
    h.1.mpr ⟨rfl, rfl, rfl, by decide, rfl, by decide,
      by rw [← TIMER_CONSTANTS.SOON_WINDOW_LOW_eq]; decide, rfl⟩
  exact ⟨hmem, h.2.1 hmem⟩
